import Mathlib

/-!
Shallow embedding of the Cardcaptor gacha-bot core:
`DatabaseManager` (src/database/db_manager.py) and `CardManager`
(src/modules/card_manager.py).  Tables are lists of rows, timestamps are
naturals, SQL queries are translated statement by statement.
-/

namespace Cardcaptor

/-- A row of the `cards` table (card template catalog). -/
structure Card where
  id : Nat
  name : String
  image_path : String
deriving DecidableEq, Repr

/-- A row of the `spawned_cards` table (a spawned, claimable unit). -/
structure SpawnedCard where
  id : Nat
  card_id : Nat
  rarity : String
  claimed : Bool
  claimed_by : Option Nat
  claimed_at : Option Nat
deriving DecidableEq, Repr

/-- A row of the `user_cards` table (an ownership record). -/
structure UserCard where
  user_id : Nat
  username : String
  card_id : Nat
  rarity : String
  claimed_at : Nat
deriving DecidableEq, Repr

/-- The SQLite database state: the three tables of `initialize_database`. -/
structure DB where
  cards : List Card
  user_cards : List UserCard
  spawned_cards : List SpawnedCard
deriving DecidableEq, Repr

/-- The three values `DatabaseManager.claim_card` can return:
the strings `'success'`, `'already_claimed'`, `'user_owns'`. -/
inductive ClaimResult where
  | success
  | already_claimed
  | user_owns
deriving DecidableEq, Repr

/-- Query `SELECT * FROM spawned_cards WHERE id = ?` followed by `fetchone`. -/
def findSpawn (db : DB) (spawn_id : Nat) : Option SpawnedCard :=
  db.spawned_cards.find? (fun s => s.id == spawn_id)

/-- Query `SELECT 1 FROM user_cards WHERE user_id = ? AND card_id = ? AND rarity = ?`
followed by `fetchone` turned into a boolean. -/
def userOwns (db : DB) (user_id card_id : Nat) (rarity : String) : Bool :=
  db.user_cards.any
    (fun uc => uc.user_id == user_id && uc.card_id == card_id && uc.rarity == rarity)

/-- Outcome of the read-only prefix of `claim_card` (the two SELECTs). -/
inductive ReadOutcome where
  | early (r : ClaimResult)
  | proceed (card_id : Nat) (rarity : String)
deriving DecidableEq, Repr

/-- The read phase of `DatabaseManager.claim_card`: look up the spawn, return
`'already_claimed'` when the row is absent or already claimed, `'user_owns'`
when the user already holds this (card_id, rarity), otherwise proceed to the
write phase carrying the unit's card_id and rarity. -/
def claimReadPhase (db : DB) (spawn_id user_id : Nat) : ReadOutcome :=
  match findSpawn db spawn_id with
  | none => .early .already_claimed
  | some sc =>
    if sc.claimed then .early .already_claimed
    else if userOwns db user_id sc.card_id sc.rarity then .early .user_owns
    else .proceed sc.card_id sc.rarity

/-- The `SET claimed = TRUE, claimed_by = ?, claimed_at = ?` clause of the
`UPDATE spawned_cards` statement, applied to one row. -/
def markClaimed (user_id nowU : Nat) (s : SpawnedCard) : SpawnedCard :=
  { s with claimed := true, claimed_by := some user_id, claimed_at := some nowU }

/-- The write phase of `DatabaseManager.claim_card`: the unconditional
`UPDATE spawned_cards SET ... WHERE id = ?` followed by the
`INSERT INTO user_cards`.  `nowU` and `nowI` are the two separate
`datetime.now()` calls. -/
def claimWritePhase (db : DB) (spawn_id user_id : Nat) (username : String)
    (card_id : Nat) (rarity : String) (nowU nowI : Nat) : DB :=
  { db with
    spawned_cards := db.spawned_cards.map (fun s =>
      if s.id == spawn_id then markClaimed user_id nowU s else s)
    user_cards := db.user_cards ++ [⟨user_id, username, card_id, rarity, nowI⟩] }

/-- Method `DatabaseManager.claim_card` run to completion as one atomic call:
the read phase followed, on success of all checks, by the write phase. -/
def claim_card (db : DB) (spawn_id user_id : Nat) (username : String)
    (nowU nowI : Nat) : ClaimResult × DB :=
  match claimReadPhase db spawn_id user_id with
  | .early r => (r, db)
  | .proceed card_id rarity =>
    (.success, claimWritePhase db spawn_id user_id username card_id rarity nowU nowI)

/-- Method `DatabaseManager.is_card_claimed`: `SELECT claimed FROM spawned_cards
WHERE id = ?`; `result[0] if result else False`. -/
def is_card_claimed (db : DB) (spawn_id : Nat) : Bool :=
  match findSpawn db spawn_id with
  | some sc => sc.claimed
  | none => false

/-- One row of `get_user_cards`' result set:
`SELECT c.name, uc.rarity, uc.claimed_at`. -/
structure UserCardView where
  name : String
  rarity : String
  claimed_at : Nat
deriving DecidableEq, Repr

/-- The `JOIN cards c ON uc.card_id = c.id` step for one `user_cards` row
(card ids are the `cards` primary key, hence unique, so the join partner is
found by `find?`). -/
def rowView (db : DB) (uc : UserCard) : Option UserCardView :=
  (db.cards.find? (fun c => c.id == uc.card_id)).map
    (fun c => ⟨c.name, uc.rarity, uc.claimed_at⟩)

/-- Clause `ORDER BY uc.claimed_at DESC`: row `a` may precede row `b` when
`b.claimed_at ≤ a.claimed_at`. -/
def laterFirst (a b : UserCardView) : Prop :=
  b.claimed_at ≤ a.claimed_at

instance : DecidableRel laterFirst := fun a b => Nat.decLe b.claimed_at a.claimed_at

instance : IsTotal UserCardView laterFirst :=
  ⟨fun a b => Nat.le_total b.claimed_at a.claimed_at⟩

instance : IsTrans UserCardView laterFirst :=
  ⟨fun _ _ _ hab hbc => Nat.le_trans hbc hab⟩

/-- Method `DatabaseManager.get_user_cards`: filter `user_cards` by `user_id`, join
each row against `cards`, order by `claimed_at` descending. -/
def get_user_cards (db : DB) (user_id : Nat) : List UserCardView :=
  List.insertionSort laterFirst
    ((db.user_cards.filter (fun uc => uc.user_id == user_id)).filterMap (rowView db))

/-- The fresh `AUTOINCREMENT` id for an insert into `spawned_cards`. -/
def nextSpawnId (db : DB) : Nat :=
  (db.spawned_cards.map (fun s => s.id)).foldr max 0 + 1

/-- The fresh `AUTOINCREMENT` id for an insert into `cards`. -/
def nextCardId (db : DB) : Nat :=
  (db.cards.map (fun c => c.id)).foldr max 0 + 1

/-- Method `DatabaseManager.create_spawn_session`: one
`INSERT INTO spawned_cards (card_id, rarity, spawned_at, claimed) VALUES (?, ?, ?, FALSE)`
per requested card.  Only the `spawned_cards` table is touched. -/
def create_spawn_session (db : DB) (cards : List (Nat × String)) : DB :=
  cards.foldl
    (fun d cr =>
      { d with spawned_cards :=
          d.spawned_cards ++ [⟨nextSpawnId d, cr.1, cr.2, false, none, none⟩] })
    db

/-- Method `DatabaseManager.add_card`: `INSERT INTO cards (name, image_path) VALUES (?, ?)`. -/
def add_card (db : DB) (name image_path : String) : DB :=
  { db with cards := db.cards ++ [⟨nextCardId db, name, image_path⟩] }

/-- Method `DatabaseManager.get_all_claimed_cards`:
`SELECT card_id, rarity FROM user_cards`. -/
def get_all_claimed_cards (db : DB) : List (Nat × String) :=
  db.user_cards.map (fun uc => (uc.card_id, uc.rarity))

/-- The freshly initialized database: all three tables empty. -/
def dbInit : DB := ⟨[], [], []⟩

/-- The (user_id, card_id, rarity) key of an ownership record. -/
def ucKey (uc : UserCard) : Nat × Nat × String :=
  (uc.user_id, uc.card_id, uc.rarity)

/-- The ownership-uniqueness invariant: no two `user_cards` rows share the
same (user_id, card_id, rarity) triple. -/
def UniqueOwnership (db : DB) : Prop :=
  (db.user_cards.map ucKey).Nodup

/-- The keys of `CardManager.rarity_config`, in insertion order. -/
def rarities : List String :=
  ["common", "uncommon", "rare", "epic", "legendary"]

/-- One candidate dict built by `CardManager._get_random_art_cards`. -/
structure PotentialSpawn where
  id : Nat
  name : String
  image_path : String
  rarity : String
deriving DecidableEq, Repr

/-- The doubly nested loop of `_get_random_art_cards`: for each card and each
rarity, keep the pair unless it is in the claimed set. -/
def potentialSpawns (cards : List Card) (claimedSet : List (Nat × String)) :
    List PotentialSpawn :=
  cards.flatMap (fun c =>
    (rarities.filter (fun r => !claimedSet.contains (c.id, r))).map
      (fun r => ⟨c.id, c.name, c.image_path, r⟩))

/-- Method `CardManager._get_random_art_cards`, parameterized by the random sampler
(`random.sample`).  Raises `ValueError` when the catalog is empty; returns the
whole candidate list when it is shorter than `count`; otherwise samples
`count` candidates. -/
def get_random_art_cards (sample : List PotentialSpawn → Nat → List PotentialSpawn)
    (db : DB) (count : Nat) : Except String (List PotentialSpawn) :=
  if db.cards.isEmpty then .error "No cards found in the database."
  else
    let ps := potentialSpawns db.cards (get_all_claimed_cards db)
    if ps.length < count then .ok ps
    else .ok (sample ps count)

/-- The contract of `random.sample l k` for `k ≤ l.length`: the result is a
permutation of some length-`k` selection of distinct positions of `l`
(that is, of a sublist of `l`). -/
def SampleSpec (sample : List PotentialSpawn → Nat → List PotentialSpawn) : Prop :=
  ∀ (l : List PotentialSpawn) (k : Nat), k ≤ l.length →
    ∃ sub : List PotentialSpawn,
      sub.Sublist l ∧ (sample l k).Perm sub ∧ (sample l k).length = k

/-- Method `CardManager.get_rarity_color`: `rarity_colors.get(rarity, 0x808080)`. -/
def get_rarity_color (rarity : String) : Nat :=
  if rarity = "common" then 0x808080
  else if rarity = "uncommon" then 0x00ff00
  else if rarity = "rare" then 0x0080ff
  else if rarity = "epic" then 0x8000ff
  else if rarity = "legendary" then 0xffd700
  else 0x808080

/-- A Python value as seen by a caller of `CardManager.claim_card`: either a
string or a boolean. -/
inductive PyVal where
  | str (s : String)
  | bool (b : Bool)
deriving DecidableEq, Repr

/-- The string `DatabaseManager.claim_card` returns for each outcome. -/
def claimResultStr : ClaimResult → String
  | .success => "success"
  | .already_claimed => "already_claimed"
  | .user_owns => "user_owns"

/-- Method `CardManager.claim_card`: forwards the database layer's string result;
when the database layer raises (infrastructure failure), the `except` handler
returns the Python value `False` instead. -/
def cm_claim_card (dbResult : Except String ClaimResult) : PyVal :=
  match dbResult with
  | .ok r => .str (claimResultStr r)
  | .error _ => .bool false

/-! ### Concrete database states used as test inputs -/

/-- One card, one open (unclaimed) spawned unit with spawn id 1. -/
def dbOneOpen : DB :=
  ⟨[⟨1, "Fireball", "art/fireball.png"⟩], [], [⟨1, 1, "common", false, none, none⟩]⟩

/-- One card, spawn id 1 already claimed by user 10, who owns the record. -/
def dbOneClaimed : DB :=
  ⟨[⟨1, "Fireball", "art/fireball.png"⟩],
   [⟨10, "alice", 1, "common", 5⟩],
   [⟨1, 1, "common", true, some 10, some 5⟩]⟩

/-- User 10 owns (card 1, common) via claimed spawn 1; spawn 2 offers the same
(card, rarity) pair and is still open. -/
def dbOneOpenOwned : DB :=
  ⟨[⟨1, "Fireball", "art/fireball.png"⟩],
   [⟨10, "alice", 1, "common", 5⟩],
   [⟨1, 1, "common", true, some 10, some 5⟩, ⟨2, 1, "common", false, none, none⟩]⟩

/-! ### C4: unknown spawn id versus claimed unit -/

/-- C4 (counterexample): the code does not signal a distinct NotFound outcome.
On the freshly initialized database, where spawn id 1 identifies no spawned
unit, `claim_card` returns the very same `'already_claimed'` value that it
returns for the claimed unit of `dbOneClaimed`. -/
theorem claim_card_notFound_conflated :
    (claim_card dbInit 1 10 "alice" 0 0).1 = ClaimResult.already_claimed ∧
    (claim_card dbOneClaimed 1 11 "bob" 0 0).1 = ClaimResult.already_claimed ∧
    (claim_card dbInit 1 10 "alice" 0 0).1 = (claim_card dbOneClaimed 1 11 "bob" 0 0).1 := by
  refine ⟨rfl, ?_, ?_⟩ <;> decide

/-- C4 (amended): for every spawnId that does not identify any spawned unit,
`claim_card` returns `'already_claimed'` — the same outcome as for a claimed
unit — and leaves the database unchanged; no distinct NotFound exists. -/
theorem claim_card_absent_spawn (db : DB) (spawn_id user_id : Nat)
    (username : String) (nowU nowI : Nat)
    (h : findSpawn db spawn_id = none) :
    claim_card db spawn_id user_id username nowU nowI =
      (ClaimResult.already_claimed, db) := by
  unfold claim_card claimReadPhase
  rw [h]

/-- C4 (witness): the amended statement applied to the initialized database. -/
theorem claim_card_absent_spawn_witness :
    findSpawn dbInit 7 = none ∧
    claim_card dbInit 7 10 "alice" 0 0 = (ClaimResult.already_claimed, dbInit) :=
  ⟨rfl, claim_card_absent_spawn dbInit 7 10 "alice" 0 0 rfl⟩

/-! ### C10: claimed-status query on an unknown spawn id -/

/-- C10: `is_card_claimed` reports `False` both for a spawn id with no row at
all and for an existing unclaimed row — an unknown spawn id is reported
identically to an existing open one, never as an error. -/
theorem is_card_claimed_unknown_eq_open (db : DB) (spawn_id : Nat)
    (h : findSpawn db spawn_id = none ∨
         ∃ sc, findSpawn db spawn_id = some sc ∧ sc.claimed = false) :
    is_card_claimed db spawn_id = false := by
  unfold is_card_claimed
  rcases h with h | ⟨sc, h, hc⟩
  · rw [h]
  · rw [h]; exact hc

/-- C10 (witness): the unknown id 7 on the initialized database, and the open
spawn 1 of `dbOneOpen`, both report `False`. -/
theorem is_card_claimed_unknown_eq_open_witness :
    is_card_claimed dbInit 7 = false ∧ is_card_claimed dbOneOpen 1 = false :=
  ⟨is_card_claimed_unknown_eq_open dbInit 7 (Or.inl rfl),
   is_card_claimed_unknown_eq_open dbOneOpen 1
     (Or.inr ⟨⟨1, 1, "common", false, none, none⟩, by decide, rfl⟩)⟩

/-! ### C8: rarity color lookup on an unknown tier -/

/-- C8 (counterexample): `get_rarity_color` never fails.  For the input
`"mythic"`, which is outside the closed tier set, it returns the ordinary
default value `0x808080` — the very value of the `"common"` tier — rather
than an UnknownTier error. -/
theorem get_rarity_color_no_error :
    get_rarity_color "mythic" = 0x808080 ∧
    get_rarity_color "common" = 0x808080 ∧
    get_rarity_color "mythic" = get_rarity_color "common" := by
  refine ⟨?_, ?_, ?_⟩ <;> decide

/-- C8 (amended): the rarity metadata lookup is a pure total function; for
every input outside the closed tier set it returns the default gray
`0x808080` (the common color) instead of failing. -/
theorem get_rarity_color_default (s : String) (h : s ∉ rarities) :
    get_rarity_color s = 0x808080 := by
  simp only [rarities, List.mem_cons, List.not_mem_nil, or_false, not_or] at h
  obtain ⟨h1, h2, h3, h4, h5⟩ := h
  unfold get_rarity_color
  rw [if_neg h1, if_neg h2, if_neg h3, if_neg h4, if_neg h5]

/-- C8 (witness): the amended statement applied to the input `"mythic"`. -/
theorem get_rarity_color_default_witness :
    "mythic" ∉ rarities ∧ get_rarity_color "mythic" = 0x808080 :=
  ⟨by decide, get_rarity_color_default "mythic" (by decide)⟩

/-! ### C7: infrastructure failures are distinct values -/

/-- C7: when the database layer raises during a claim, `CardManager.claim_card`
hands the caller the Python value `False`, which differs from the value the
caller receives for each of the three ClaimResult variants — infrastructure
failure is never conflated with an arbitration outcome. -/
theorem cm_claim_card_failure_distinct (e : String) :
    cm_claim_card (Except.error e) = PyVal.bool false ∧
    ∀ r : ClaimResult, cm_claim_card (Except.error e) ≠ cm_claim_card (Except.ok r) := by
  refine ⟨rfl, fun r => ?_⟩
  cases r <;> simp [cm_claim_card, claimResultStr]

/-! ### C2 and C3: the two effectful branches of `claim_card` -/

/-- The read phase proceeds to the write phase exactly on an open unit whose
(card_id, rarity) the user does not own yet. -/
theorem claimReadPhase_proceed (db : DB) (spawn_id user_id : Nat) (sc : SpawnedCard)
    (hfind : findSpawn db spawn_id = some sc)
    (hopen : sc.claimed = false)
    (hown : userOwns db user_id sc.card_id sc.rarity = false) :
    claimReadPhase db spawn_id user_id = ReadOutcome.proceed sc.card_id sc.rarity := by
  simp [claimReadPhase, hfind, hopen, hown]

/-- The read phase stops with `'user_owns'` on an open unit whose
(card_id, rarity) the user already owns. -/
theorem claimReadPhase_owns (db : DB) (spawn_id user_id : Nat) (sc : SpawnedCard)
    (hfind : findSpawn db spawn_id = some sc)
    (hopen : sc.claimed = false)
    (hown : userOwns db user_id sc.card_id sc.rarity = true) :
    claimReadPhase db spawn_id user_id = ReadOutcome.early ClaimResult.user_owns := by
  simp [claimReadPhase, hfind, hopen, hown]

/-- Looking a spawn id up after the write phase's `UPDATE` finds the same row
as before, with the `SET` clause applied. -/
theorem find_update_list (l : List SpawnedCard) (spawn_id user_id nowU : Nat) :
    (l.map (fun s => if s.id == spawn_id then markClaimed user_id nowU s else s)).find?
        (fun s => s.id == spawn_id)
      = (l.find? (fun s => s.id == spawn_id)).map (markClaimed user_id nowU) := by
  induction l with
  | nil => rfl
  | cons a l ih =>
    simp only [List.map_cons]
    by_cases h : (a.id == spawn_id) = true
    · rw [if_pos h, List.find?_cons_of_pos (p := fun s : SpawnedCard => s.id == spawn_id) _ h,
        List.find?_cons_of_pos (p := fun s : SpawnedCard => s.id == spawn_id) _
          (show ((markClaimed user_id nowU a).id == spawn_id) = true from h)]
      rfl
    · rw [if_neg h, List.find?_cons_of_neg (p := fun s : SpawnedCard => s.id == spawn_id) _ h,
        List.find?_cons_of_neg (p := fun s : SpawnedCard => s.id == spawn_id) _ h, ih]

/-- C2: on an open spawned unit, for a user with no matching ownership record,
`claim_card` returns `'success'`, appends exactly one new ownership record
carrying the unit's (card_id, rarity) and the given user and username, marks
the unit claimed with `claimed_by` the user, and leaves the catalog alone. -/
theorem claim_card_success (db : DB) (spawn_id user_id : Nat) (username : String)
    (nowU nowI : Nat) (sc : SpawnedCard)
    (hfind : findSpawn db spawn_id = some sc)
    (hopen : sc.claimed = false)
    (hown : userOwns db user_id sc.card_id sc.rarity = false) :
    (claim_card db spawn_id user_id username nowU nowI).1 = ClaimResult.success ∧
    (claim_card db spawn_id user_id username nowU nowI).2.user_cards
      = db.user_cards ++ [⟨user_id, username, sc.card_id, sc.rarity, nowI⟩] ∧
    findSpawn (claim_card db spawn_id user_id username nowU nowI).2 spawn_id
      = some (markClaimed user_id nowU sc) ∧
    (claim_card db spawn_id user_id username nowU nowI).2.cards = db.cards := by
  have hrp := claimReadPhase_proceed db spawn_id user_id sc hfind hopen hown
  unfold claim_card
  rw [hrp]
  refine ⟨rfl, rfl, ?_, rfl⟩
  show findSpawn
      (claimWritePhase db spawn_id user_id username sc.card_id sc.rarity nowU nowI)
      spawn_id = some (markClaimed user_id nowU sc)
  unfold findSpawn claimWritePhase
  rw [find_update_list]
  rw [show db.spawned_cards.find? (fun s => s.id == spawn_id) = some sc from hfind]
  rfl

/-- C2 (witness): user 10 claims the open spawn 1 of `dbOneOpen`. -/
theorem claim_card_success_witness :
    findSpawn dbOneOpen 1 = some ⟨1, 1, "common", false, none, none⟩ ∧
    ((claim_card dbOneOpen 1 10 "alice" 5 5).1 = ClaimResult.success ∧
     (claim_card dbOneOpen 1 10 "alice" 5 5).2.user_cards
       = dbOneOpen.user_cards ++ [⟨10, "alice", 1, "common", 5⟩] ∧
     findSpawn (claim_card dbOneOpen 1 10 "alice" 5 5).2 1
       = some (markClaimed 10 5 ⟨1, 1, "common", false, none, none⟩) ∧
     (claim_card dbOneOpen 1 10 "alice" 5 5).2.cards = dbOneOpen.cards) :=
  ⟨by decide,
   claim_card_success dbOneOpen 1 10 "alice" 5 5
     ⟨1, 1, "common", false, none, none⟩ (by decide) rfl rfl⟩

/-- C3: when the user already owns the unit's (card_id, rarity), `claim_card`
returns `'user_owns'` and the database is returned unmodified, so the unit
stays open; consequently any other user without such a record still gets
`'success'` on the same spawn. -/
theorem claim_card_user_owns (db : DB) (spawn_id user_id : Nat) (username : String)
    (nowU nowI : Nat) (sc : SpawnedCard)
    (hfind : findSpawn db spawn_id = some sc)
    (hopen : sc.claimed = false)
    (hown : userOwns db user_id sc.card_id sc.rarity = true) :
    claim_card db spawn_id user_id username nowU nowI = (ClaimResult.user_owns, db) ∧
    ∀ (other_id : Nat) (other_name : String) (mU mI : Nat),
      userOwns db other_id sc.card_id sc.rarity = false →
      (claim_card db spawn_id other_id other_name mU mI).1 = ClaimResult.success := by
  constructor
  · have hrp := claimReadPhase_owns db spawn_id user_id sc hfind hopen hown
    unfold claim_card
    rw [hrp]
  · intro other_id other_name mU mI hother
    have hrp := claimReadPhase_proceed db spawn_id other_id sc hfind hopen hother
    unfold claim_card
    rw [hrp]

/-- C3 (witness): in `dbOneOpenOwned`, user 10 already owns (card 1, common)
while spawn 2 of that pair is open; user 10 gets `'user_owns'` with the
database untouched, and user 11 still gets `'success'`. -/
theorem claim_card_user_owns_witness :
    (findSpawn dbOneOpenOwned 2 = some ⟨2, 1, "common", false, none, none⟩ ∧
     userOwns dbOneOpenOwned 10 1 "common" = true) ∧
    (claim_card dbOneOpenOwned 2 10 "alice" 9 9 = (ClaimResult.user_owns, dbOneOpenOwned) ∧
     (claim_card dbOneOpenOwned 2 11 "bob" 9 9).1 = ClaimResult.success) := by
  have h := claim_card_user_owns dbOneOpenOwned 2 10 "alice" 9 9
    ⟨2, 1, "common", false, none, none⟩ (by decide) rfl (by decide)
  exact ⟨⟨by decide, by decide⟩, h.1, h.2 11 "bob" 9 9 (by decide)⟩

/-! ### C1: concurrent claims on the same spawn id

`claim_card` runs its two SELECTs outside any transaction; the transaction
opens only at the first write.  Two overlapping calls can therefore both
execute their read phase against the same state before either write phase
commits; SQLite's single-writer lock then serializes the two write phases.
The schedule below (read A, read B, write A, write B) is such an
interleaving. -/

/-- C1 (code_bug evidence): with spawn 1 open in `dbOneOpen`, users 10 and 11
race on spawn id 1 under the schedule read-A, read-B, write-A, write-B.  Both
read phases proceed, so both calls return `'success'`; the final database
holds two ownership records for the single spawned unit, and the unit's
`claimed_by` records the second user, overwriting the first.  The claimed
property — exactly one Success, the rest AlreadyClaimed — fails. -/
theorem claim_race_two_successes :
    claimReadPhase dbOneOpen 1 10 = ReadOutcome.proceed 1 "common" ∧
    claimReadPhase dbOneOpen 1 11 = ReadOutcome.proceed 1 "common" ∧
    (claimWritePhase (claimWritePhase dbOneOpen 1 10 "alice" 1 "common" 5 5)
        1 11 "bob" 1 "common" 6 6).user_cards
      = [⟨10, "alice", 1, "common", 5⟩, ⟨11, "bob", 1, "common", 6⟩] ∧
    findSpawn (claimWritePhase (claimWritePhase dbOneOpen 1 10 "alice" 1 "common" 5 5)
        1 11 "bob" 1 "common" 6 6) 1
      = some ⟨1, 1, "common", true, some 11, some 6⟩ := by
  refine ⟨?_, ?_, ?_, ?_⟩ <;> decide

/-! ### C6: uniqueness of (user_id, card_id, rarity)

No UNIQUE constraint guards the triple in the `user_cards` schema
(`initialize_database`); uniqueness rests solely on `claim_card`'s
`SELECT 1 FROM user_cards ...` check.  That check does preserve the invariant
within one run-to-completion call (`claim_preserves_unique` below), but it is
check-then-act: it runs outside any transaction, so two interleaved claims by
the same user on two open spawns of the same (card_id, rarity) both pass the
check before either INSERT commits, and the invariant is violated. -/

/-- The `SELECT 1 FROM user_cards ...` duplicate check coming back empty means
the triple's key is not among the stored records' keys. -/
theorem userOwns_false_iff (db : DB) (u c : Nat) (r : String) :
    userOwns db u c r = false ↔ (u, c, r) ∉ db.user_cards.map ucKey := by
  unfold userOwns ucKey
  induction db.user_cards with
  | nil => simp
  | cons a l ih =>
    simp only [List.any_cons, Bool.or_eq_false_iff, List.map_cons, List.mem_cons, not_or, ih]
    constructor
    · rintro ⟨h1, h2⟩
      refine ⟨?_, h2⟩
      intro he
      rw [Prod.ext_iff, Prod.ext_iff] at he
      simp only [Bool.and_eq_false_iff, beq_eq_false_iff_ne, ne_eq] at h1
      rcases h1 with h1 | h1
      · rcases h1 with h1 | h1
        · exact h1 he.1.symm
        · exact h1 he.2.1.symm
      · exact h1 he.2.2.symm
    · rintro ⟨h1, h2⟩
      refine ⟨?_, h2⟩
      simp only [Bool.and_eq_false_iff, beq_eq_false_iff_ne, ne_eq]
      by_cases hu : a.user_id = u
      · by_cases hc : a.card_id = c
        · by_cases hr : a.rarity = r
          · exact absurd (by rw [Prod.ext_iff, Prod.ext_iff]; exact ⟨hu.symm, hc.symm, hr.symm⟩) h1
          · exact Or.inr hr
        · exact Or.inl (Or.inr hc)
      · exact Or.inl (Or.inl hu)

/-- A single run-to-completion `claim_card` call preserves the uniqueness
invariant: a record is inserted only after the duplicate check found no
matching record.  Only the interleaving of two calls breaks it, as
`ownership_uniqueness_race` shows. -/
theorem claim_preserves_unique (db : DB) (spawn_id user_id : Nat)
    (username : String) (nowU nowI : Nat) (h : UniqueOwnership db) :
    UniqueOwnership (claim_card db spawn_id user_id username nowU nowI).2 := by
  unfold claim_card
  cases hrp : claimReadPhase db spawn_id user_id with
  | early r => exact h
  | proceed card_id rarity =>
    have hown : userOwns db user_id card_id rarity = false := by
      unfold claimReadPhase at hrp
      cases hf : findSpawn db spawn_id with
      | none => rw [hf] at hrp; exact absurd hrp (by simp)
      | some sc =>
        rw [hf] at hrp
        by_cases hc : sc.claimed = true
        · simp [hc] at hrp
        · rw [Bool.not_eq_true] at hc
          by_cases ho : userOwns db user_id sc.card_id sc.rarity = true
          · simp [hc, ho] at hrp
          · rw [Bool.not_eq_true] at ho
            simp only [hc, Bool.false_eq_true, if_false, ho, if_false] at hrp
            cases hrp
            exact ho
    unfold UniqueOwnership claimWritePhase at *
    simp only [List.map_append, List.map_cons, List.map_nil]
    rw [List.nodup_append]
    refine ⟨h, List.nodup_singleton _, ?_⟩
    intro x hx hx1
    simp only [List.mem_singleton] at hx1
    subst hx1
    exact (userOwns_false_iff db user_id card_id rarity).mp hown hx

/-- One card, and two open spawned units (spawn ids 1 and 2) that both offer
the same (card 1, common) combination — the state `create_spawn_session`
produces before either unit is claimed. -/
def dbTwoOpenSame : DB :=
  ⟨[⟨1, "Fireball", "art/fireball.png"⟩], [],
   [⟨1, 1, "common", false, none, none⟩, ⟨2, 1, "common", false, none, none⟩]⟩

/-- C6 (code_bug evidence): user 10 claims the two open spawns 1 and 2 of the
same (card 1, common) pair concurrently, under the schedule read-1, read-2,
write-1, write-2.  Both read phases pass the `SELECT 1 FROM user_cards`
duplicate check against the same snapshot, so both calls proceed and return
`'success'`, and the final `user_cards` table holds two records with the same
(user_id, card_id, rarity) key (10, 1, common) — the uniqueness invariant,
which the claim asserts of every reachable state, is violated; the spec
instead requires the second call to observe UserAlreadyOwns. -/
theorem ownership_uniqueness_race :
    claimReadPhase dbTwoOpenSame 1 10 = ReadOutcome.proceed 1 "common" ∧
    claimReadPhase dbTwoOpenSame 2 10 = ReadOutcome.proceed 1 "common" ∧
    ((claimWritePhase (claimWritePhase dbTwoOpenSame 1 10 "alice" 1 "common" 5 5)
        2 10 "alice" 1 "common" 6 6).user_cards.map ucKey
      = [(10, 1, "common"), (10, 1, "common")]) ∧
    ¬ UniqueOwnership (claimWritePhase
        (claimWritePhase dbTwoOpenSame 1 10 "alice" 1 "common" 5 5)
        2 10 "alice" 1 "common" 6 6) := by
  refine ⟨by decide, by decide, by decide, ?_⟩
  unfold UniqueOwnership
  decide

/-! ### C9: a user's collection, most recent first -/

/-- A `filterMap` whose function succeeds on every element drops nothing. -/
theorem length_filterMap_of_isSome {α β : Type} (f : α → Option β) :
    ∀ l : List α, (∀ x ∈ l, (f x).isSome) → (l.filterMap f).length = l.length := by
  intro l
  induction l with
  | nil => intro _; rfl
  | cons a l ih =>
    intro h
    have ha := h a (List.mem_cons_self a l)
    obtain ⟨b, hb⟩ := Option.isSome_iff_exists.mp ha
    rw [List.filterMap_cons, hb, List.length_cons]
    rw [ih (fun x hx => h x (List.mem_cons_of_mem a hx))]
    rfl

/-- C9: when every ownership record's card exists in the catalog (they are
inserted only with catalog card ids), `get_user_cards` returns a result that
is sorted by `claimed_at` descending, is a permutation of the joined rows of
exactly that user's records, and has exactly one row per record of the user;
its members are exactly the joined rows of the user's records. -/
theorem get_user_cards_spec (db : DB) (uid : Nat)
    (h : ∀ uc ∈ db.user_cards, (rowView db uc).isSome) :
    (get_user_cards db uid).Sorted laterFirst ∧
    (get_user_cards db uid).Perm
      ((db.user_cards.filter (fun uc => uc.user_id == uid)).filterMap (rowView db)) ∧
    ((db.user_cards.filter (fun uc => uc.user_id == uid)).filterMap (rowView db)).length
      = (db.user_cards.filter (fun uc => uc.user_id == uid)).length ∧
    ∀ v, v ∈ get_user_cards db uid ↔
      ∃ uc ∈ db.user_cards, uc.user_id = uid ∧ rowView db uc = some v := by
  refine ⟨List.sorted_insertionSort laterFirst _, List.perm_insertionSort laterFirst _,
    ?_, ?_⟩
  · exact length_filterMap_of_isSome (rowView db) _
      (fun x hx => h x (List.mem_of_mem_filter hx))
  · intro v
    unfold get_user_cards
    rw [List.mem_insertionSort, List.mem_filterMap]
    constructor
    · rintro ⟨uc, hmem, hv⟩
      have h1 := List.mem_of_mem_filter hmem
      have h2 := List.of_mem_filter hmem
      exact ⟨uc, h1, by simpa using h2, hv⟩
    · rintro ⟨uc, hmem, huid, hv⟩
      exact ⟨uc, List.mem_filter.mpr ⟨hmem, by simpa using huid⟩, hv⟩

/-- Two records for user 10 (acquired at times 5 and 9) and one for user 11,
all with catalog cards. -/
def dbTwoUsers : DB :=
  ⟨[⟨1, "Fireball", "art/fireball.png"⟩, ⟨2, "Icebolt", "art/icebolt.png"⟩],
   [⟨10, "alice", 1, "common", 5⟩, ⟨11, "bob", 1, "rare", 7⟩, ⟨10, "alice", 2, "epic", 9⟩],
   [⟨1, 1, "common", true, some 10, some 5⟩, ⟨2, 1, "rare", true, some 11, some 7⟩,
    ⟨3, 2, "epic", true, some 10, some 9⟩]⟩

/-- C9 (witness): the specification applied to `dbTwoUsers` and user 10. -/
theorem get_user_cards_spec_witness :
    (∀ uc ∈ dbTwoUsers.user_cards, (rowView dbTwoUsers uc).isSome) ∧
    ((get_user_cards dbTwoUsers 10).Sorted laterFirst ∧
     (get_user_cards dbTwoUsers 10).Perm
       ((dbTwoUsers.user_cards.filter (fun uc => uc.user_id == 10)).filterMap
         (rowView dbTwoUsers)) ∧
     ((dbTwoUsers.user_cards.filter (fun uc => uc.user_id == 10)).filterMap
         (rowView dbTwoUsers)).length
       = (dbTwoUsers.user_cards.filter (fun uc => uc.user_id == 10)).length ∧
     ∀ v, v ∈ get_user_cards dbTwoUsers 10 ↔
       ∃ uc ∈ dbTwoUsers.user_cards, uc.user_id = 10 ∧ rowView dbTwoUsers uc = some v) :=
  ⟨by decide, get_user_cards_spec dbTwoUsers 10 (by decide)⟩

/-! ### C5: the spawn engine's eligible set -/

/-- Membership in the candidate list built by `_get_random_art_cards`:
exactly the unclaimed (card, rarity) combinations, carrying the card's
name and image path. -/
theorem mem_potentialSpawns (cards : List Card) (claimed : List (Nat × String))
    (p : PotentialSpawn) :
    p ∈ potentialSpawns cards claimed ↔
      ∃ c ∈ cards, ∃ r ∈ rarities, (c.id, r) ∉ claimed ∧
        p = ⟨c.id, c.name, c.image_path, r⟩ := by
  unfold potentialSpawns
  rw [List.mem_flatMap]
  constructor
  · rintro ⟨c, hc, hp⟩
    rw [List.mem_map] at hp
    obtain ⟨r, hr, hpr⟩ := hp
    rw [List.mem_filter] at hr
    have hnc : (c.id, r) ∉ claimed := by
      have := hr.2
      simpa using this
    exact ⟨c, hc, r, hr.1, hnc, hpr.symm⟩
  · rintro ⟨c, hc, r, hr, hnc, hpr⟩
    refine ⟨c, hc, ?_⟩
    rw [List.mem_map]
    refine ⟨r, ?_, hpr.symm⟩
    rw [List.mem_filter]
    exact ⟨hr, by simpa using hnc⟩

/-- When the catalog's card ids are distinct, the candidate list has no
duplicate entry. -/
theorem potentialSpawns_nodup (cards : List Card) (claimed : List (Nat × String))
    (h : (cards.map (fun c => c.id)).Nodup) :
    (potentialSpawns cards claimed).Nodup := by
  induction cards with
  | nil => exact List.nodup_nil
  | cons c cs ih =>
    rw [List.map_cons, List.nodup_cons] at h
    show (((rarities.filter _).map _) ++ potentialSpawns cs claimed).Nodup
    rw [List.nodup_append]
    refine ⟨?_, ih h.2, ?_⟩
    · refine List.Nodup.map ?_ (List.Nodup.filter _ (by decide))
      intro r1 r2 he
      exact congrArg PotentialSpawn.rarity he
    · intro x hx1 hx2
      rw [List.mem_map] at hx1
      obtain ⟨r, _, hr⟩ := hx1
      rw [mem_potentialSpawns] at hx2
      obtain ⟨c2, hc2, r2, _, _, hx2⟩ := hx2
      apply h.1
      rw [List.mem_map]
      refine ⟨c2, hc2, ?_⟩
      have : x.id = c2.id := by rw [hx2]
      rw [← this, ← hr]

/-- Once every (card, rarity) combination is claimed, the candidate list is
empty. -/
theorem potentialSpawns_eq_nil (cards : List Card) (claimed : List (Nat × String))
    (h : ∀ c ∈ cards, ∀ r ∈ rarities, (c.id, r) ∈ claimed) :
    potentialSpawns cards claimed = [] := by
  induction cards with
  | nil => rfl
  | cons c cs ih =>
    show ((rarities.filter _).map _) ++ potentialSpawns cs claimed = []
    rw [List.append_eq_nil]
    constructor
    · rw [List.map_eq_nil_iff, List.filter_eq_nil_iff]
      intro r hr
      simpa using h c (List.mem_cons_self c cs) r hr
    · exact ih (fun c2 hc2 => h c2 (List.mem_cons_of_mem c hc2))

/-- C5 (amended): provided the catalog is nonempty and the sampler obeys
`random.sample`'s contract, `_get_random_art_cards` never errors: the
candidate list is exactly the set of unclaimed (card, rarity) pairs; when it
is shorter than `count` the whole list is returned (possibly empty); when it
is long enough, `count` pairwise-distinct candidates are returned; and when
every combination is claimed the result is the empty list. -/
theorem get_random_art_cards_spec
    (sample : List PotentialSpawn → Nat → List PotentialSpawn)
    (db : DB) (count : Nat)
    (hcards : db.cards ≠ [])
    (hs : SampleSpec sample) :
    (∀ p, p ∈ potentialSpawns db.cards (get_all_claimed_cards db) ↔
      ∃ c ∈ db.cards, ∃ r ∈ rarities, (c.id, r) ∉ get_all_claimed_cards db ∧
        p = ⟨c.id, c.name, c.image_path, r⟩) ∧
    ((potentialSpawns db.cards (get_all_claimed_cards db)).length < count →
      get_random_art_cards sample db count
        = .ok (potentialSpawns db.cards (get_all_claimed_cards db))) ∧
    (count ≤ (potentialSpawns db.cards (get_all_claimed_cards db)).length →
      ∃ res, get_random_art_cards sample db count = .ok res ∧
        res.length = count ∧
        (∀ x ∈ res, x ∈ potentialSpawns db.cards (get_all_claimed_cards db)) ∧
        ((db.cards.map (fun c => c.id)).Nodup → res.Nodup)) ∧
    ((∀ c ∈ db.cards, ∀ r ∈ rarities, (c.id, r) ∈ get_all_claimed_cards db) →
      get_random_art_cards sample db count = .ok []) := by
  have hne : db.cards.isEmpty = false := by
    cases hc : db.cards with
    | nil => exact absurd hc hcards
    | cons a l => rfl
  refine ⟨fun p => mem_potentialSpawns db.cards (get_all_claimed_cards db) p, ?_, ?_, ?_⟩
  · intro hlt
    unfold get_random_art_cards
    rw [hne]
    simp only [Bool.false_eq_true, if_false, if_pos hlt]
  · intro hge
    obtain ⟨sub, hsub, hperm, hlen⟩ :=
      hs (potentialSpawns db.cards (get_all_claimed_cards db)) count hge
    refine ⟨sample (potentialSpawns db.cards (get_all_claimed_cards db)) count, ?_, hlen,
      ?_, ?_⟩
    · unfold get_random_art_cards
      rw [hne]
      simp only [Bool.false_eq_true, if_false, if_neg (Nat.not_lt.mpr hge)]
    · intro x hx
      exact hsub.mem (hperm.mem_iff.mp hx)
    · intro hids
      exact hperm.nodup_iff.mpr (hsub.nodup (potentialSpawns_nodup _ _ hids))
  · intro hall
    have hnil := potentialSpawns_eq_nil db.cards (get_all_claimed_cards db) hall
    unfold get_random_art_cards
    rw [hne]
    simp only [Bool.false_eq_true, if_false, hnil]
    by_cases hc : count = 0
    · subst hc
      obtain ⟨sub, hsub, hperm, hlen⟩ := hs [] 0 (Nat.zero_le _)
      rw [if_neg (by simp)]
      rw [List.length_eq_zero.mp hlen]
    · rw [if_pos (by simpa using Nat.pos_of_ne_zero hc)]

/-- A sampler that keeps the first `k` candidates; it satisfies
`random.sample`'s contract. -/
def sampleTake (l : List PotentialSpawn) (k : Nat) : List PotentialSpawn :=
  l.take k

/-- Sampler `sampleTake` obeys the `random.sample` contract. -/
theorem sampleTake_spec : SampleSpec sampleTake := by
  intro l k hk
  refine ⟨l.take k, List.take_sublist k l, List.Perm.refl _, ?_⟩
  show (l.take k).length = k
  rw [List.length_take]
  exact Nat.min_eq_left hk

/-- C5 (counterexample): on the freshly initialized database — a legitimate
(empty) state of the ownership store — `_get_random_art_cards` does not
return the empty eligible set: it raises
`ValueError("No cards found in the database.")`. -/
theorem get_random_art_cards_empty_catalog_error :
    get_random_art_cards sampleTake dbInit 3
      = .error "No cards found in the database." := rfl

/-- C5 (witness): the amended statement applied to `dbOneOpen`, the `take`
sampler and desired count 3. -/
theorem get_random_art_cards_spec_witness :
    (dbOneOpen.cards ≠ [] ∧ SampleSpec sampleTake) ∧
    ((∀ p, p ∈ potentialSpawns dbOneOpen.cards (get_all_claimed_cards dbOneOpen) ↔
       ∃ c ∈ dbOneOpen.cards, ∃ r ∈ rarities,
         (c.id, r) ∉ get_all_claimed_cards dbOneOpen ∧
         p = ⟨c.id, c.name, c.image_path, r⟩) ∧
     ((potentialSpawns dbOneOpen.cards (get_all_claimed_cards dbOneOpen)).length < 3 →
       get_random_art_cards sampleTake dbOneOpen 3
         = .ok (potentialSpawns dbOneOpen.cards (get_all_claimed_cards dbOneOpen))) ∧
     (3 ≤ (potentialSpawns dbOneOpen.cards (get_all_claimed_cards dbOneOpen)).length →
       ∃ res, get_random_art_cards sampleTake dbOneOpen 3 = .ok res ∧
         res.length = 3 ∧
         (∀ x ∈ res, x ∈ potentialSpawns dbOneOpen.cards (get_all_claimed_cards dbOneOpen)) ∧
         ((dbOneOpen.cards.map (fun c => c.id)).Nodup → res.Nodup)) ∧
     ((∀ c ∈ dbOneOpen.cards, ∀ r ∈ rarities,
         (c.id, r) ∈ get_all_claimed_cards dbOneOpen) →
       get_random_art_cards sampleTake dbOneOpen 3 = .ok [])) :=
  ⟨⟨by decide, sampleTake_spec⟩,
   get_random_art_cards_spec sampleTake dbOneOpen 3 (by decide) sampleTake_spec⟩

end Cardcaptor
